import Mathlib

/-!
Verification of the lsa-cookie session-credential harvester.

The definitions below are a shallow embedding of the JavaScript source
(`src/server.js` and the variants under `src/unnamed/`).  Pure functions are
translated directly; stateful code (the result cache, the request coalescer)
is modelled by explicit state passing; the ambient clock (`Date.now()`) is an
explicit parameter; external capabilities (the browser driver's cookie jar,
node's `crypto` library) are modelled at their boundary: the jar as a function
from sample index to cookie list, and `crypto.createHash('sha1')` by a full
SHA-1 implementation (FIPS 180-4) over byte lists.
-/

namespace LsaCookie

/-! ## Data model -/

/-- A browser cookie as produced by the session driver (`Network.getAllCookies`).
Only the fields the embedded code reads are kept: `name`, `value`, `domain`. -/
structure Cookie where
  name : String
  value : String
  domain : String := ""
deriving DecidableEq

/-! ## hasAuthCookies (src/server.js:86-88) -/

/-- `hasAuthCookies(list)`: true iff some cookie is named `SID`,
`__Secure-1PSID` or `__Secure-3PSID` (src/server.js:86-88). -/
def hasAuthCookies (list : List Cookie) : Bool :=
  list.any fun c => c.name == "SID" || c.name == "__Secure-1PSID" || c.name == "__Secure-3PSID"

/-! ## requireKey (src/server.js:41-45, src/unnamed/part_003:21-25) -/

/-- Outcome of the `requireKey` express middleware: either control passes to
the route handler (`next`) or a 401 response is sent and the handler never runs. -/
inductive GateOutcome where
  | next
  | unauthorized401
deriving DecidableEq

/-- `requireKey(req,res,next)` (src/server.js:41-45): if `API_KEY` is the empty
string (falsy) every request passes; otherwise the request passes iff its
`x-api-key` header is present and strictly equal to `API_KEY`; otherwise a 401
JSON response is sent.  `xApiKey = none` models an absent header
(`undefined === API_KEY` is false for a non-empty key). -/
def requireKey (apiKey : String) (xApiKey : Option String) : GateOutcome :=
  if apiKey = "" then .next
  else if xApiKey = some apiKey then .next
  else .unauthorized401

/-- Status and handler-invocation record for a gated route: express runs the
route handler only when the middleware calls `next()`. -/
structure GatedResponse where
  status : Nat
  handlerInvoked : Bool
deriving DecidableEq

/-- Composition of `requireKey` with a route handler: on `next` the handler
runs (status 200 stands for whatever the handler produces); on the 401 path the
handler — and hence the harvest and cache logic inside it — is never invoked. -/
def gateThenHandle (apiKey : String) (xApiKey : Option String) : GatedResponse :=
  match requireKey apiKey xApiKey with
  | .next => { status := 200, handlerInvoked := true }
  | .unauthorized401 => { status := 401, handlerInvoked := false }

/-! ## Cache read path of getCookiesAndHeader (src/unnamed/part_003:55-58) -/

/-- The module-level cache slot of src/unnamed/part_003:19
(`let cache = { header: '', cookies: [], expires: 0 }`). -/
structure P3Cache where
  header : String
  cookies : List Cookie
  expires : Nat
deriving DecidableEq

/-- The value returned to the caller of `getCookiesAndHeader`. -/
structure P3Response where
  header : String
  cookies : List Cookie
  fromCache : Bool
deriving DecidableEq

/-- `getCookiesAndHeader(targetUrl, {force,...})` of src/unnamed/part_003:55-68,
with the ambient clock `now` explicit and the browser run abstracted as the
pair `harvest = (header, cookies)` it would produce.  Guard translated from
`if (!force && cache.header && Date.now() < cache.expires)`: note the JS
truthiness test on `cache.header`.  Returns the new cache, the response, and
whether a harvest (browser launch) was performed. -/
def p3GetCookiesAndHeader (force : Bool) (now : Nat) (cache : P3Cache)
    (harvest : String × List Cookie) (ttl : Nat) : P3Cache × P3Response × Bool :=
  if !force && cache.header != "" && decide (now < cache.expires) then
    (cache, { header := cache.header, cookies := cache.cookies, fromCache := true }, false)
  else
    ({ header := harvest.1, cookies := harvest.2, expires := now + ttl },
     { header := harvest.1, cookies := harvest.2, fromCache := false }, true)

/-! ## Coalescer (src/server.js:577-592, second variant) -/

/-- State shared by all callers of the coalescing `getCookiesAndHeader`
(src/server.js:394-395): the cache slot and the in-flight promise.  The
in-flight promise is identified by a number; `started` records, in order, the
identities of the real harvest runs (`getCookiesAndHeaderRaw` invocations)
that have been started; `nextId` names the next run. -/
structure CoalState where
  cacheHeader : String
  cacheCookies : List Cookie
  cacheExpires : Nat
  inflight : Option Nat
  nextId : Nat
  started : List Nat
deriving DecidableEq

/-- One caller's request: its `force` flag and its arrival instant. -/
structure CallReq where
  force : Bool
  now : Nat
deriving DecidableEq

/-- The cache-read guard of src/server.js:579:
`if (!opts?.force && cache.header && Date.now() < cache.expires)`. -/
def cacheServes (s : CoalState) (r : CallReq) : Bool :=
  !r.force && s.cacheHeader != "" && decide (r.now < s.cacheExpires)

/-- What a single caller receives synchronously: either the cached value or
the identity of the in-flight harvest promise it was attached to. -/
inductive CallOutcome where
  | fromCache (header : String) (cookies : List Cookie)
  | attached (id : Nat)
deriving DecidableEq

/-- One synchronous execution of `getCookiesAndHeader` (src/server.js:577-592).
JavaScript is single-threaded and the function contains no `await` between the
`inflight` test and its assignment, so the check-then-set is atomic: if the
guard serves from cache the state is untouched; else if a promise is in flight
the caller attaches to it; else a new harvest run is started and the caller
attaches to that. -/
def coalStep (s : CoalState) (r : CallReq) : CoalState × CallOutcome :=
  if cacheServes s r then
    (s, .fromCache s.cacheHeader s.cacheCookies)
  else
    match s.inflight with
    | some id => (s, .attached id)
    | none =>
        ({ s with inflight := some s.nextId, nextId := s.nextId + 1,
                  started := s.started ++ [s.nextId] },
         .attached s.nextId)

/-- A sequence of callers arriving while the in-flight promise (if any) has
not yet settled: each runs `coalStep` in turn. -/
def runCalls : CoalState → List CallReq → CoalState × List CallOutcome
  | s, [] => (s, [])
  | s, r :: rest =>
      let p := coalStep s r
      let q := runCalls p.1 rest
      (q.1, p.2 :: q.2)

/-- Settlement of the in-flight promise (src/server.js:585-589): the cache is
replaced wholesale and `inflight` is reset to null; every attached caller
resolves with the one result of that run. -/
def coalComplete (s : CoalState) (now : Nat) (ttl : Nat)
    (header : String) (cookies : List Cookie) : CoalState :=
  { s with cacheHeader := header, cacheCookies := cookies,
           cacheExpires := now + ttl, inflight := none }

/-- The result a caller eventually receives, given the map from harvest-run
identity to that run's settled result: attached callers all read the same
promise, so they receive the run's single result. -/
def deliver (results : Nat → String) : CallOutcome → String
  | .fromCache h _ => h
  | .attached id => results id

/-! ## Profile Selector (src/server.js:62-67, 257-287) -/

/-- The generated alternate profile names of `listCandidateProfiles`
(src/server.js:63-64): `['Default', 'Profile 1', ..., 'Profile 8']`. -/
def altProfileNames : List String :=
  "Default" :: (List.range 8).map fun i => "Profile " ++ toString (i + 1)

/-- The `filter` of src/server.js:66 with its `seen` set: keep each name's
first occurrence, drop later duplicates. -/
def dedupFirstAux (seen : List String) : List String → List String
  | [] => []
  | n :: rest =>
      if n ∈ seen then dedupFirstAux seen rest
      else n :: dedupFirstAux (n :: seen) rest

/-- `listCandidateProfiles()` (src/server.js:62-67):
`[PROFILE_NAME_PREFERRED, 'Default', 'Profile 1', ..., 'Profile 8']`
de-duplicated keeping first occurrences.  The configured preferred name is an
explicit parameter (env `PROFILE_NAME`, default `'Default'`). -/
def listCandidateProfiles (preferred : String) : List String :=
  dedupFirstAux [] (preferred :: altProfileNames)

/-- The candidate list of `fetchFreshAuth` (src/server.js:259):
`forcedProfile ? [forcedProfile] : listCandidateProfiles()`. -/
def candidatesFor (forced : Option String) (preferred : String) : List String :=
  match forced with
  | some p => [p]
  | none => listCandidateProfiles preferred

/-- The cookie-store presence flags recorded for one attempt
(`cloned.source`, src/server.js:150-156). -/
structure SourceFlags where
  hasCookies : Bool
  hasCookiesWal : Bool
  hasNetCookies : Bool
  hasNetCookiesWal : Bool
deriving DecidableEq

/-- The value `tryProfileOnce` resolves with (src/server.js:232-248): either
the success shape of lines 232-241 or the caught-error shape of lines 243-248.
`tryProfileOnce` performs browser I/O, so the Selector theorems are stated for
an arbitrary assignment of outcomes to candidate names. -/
structure AttemptOutcome where
  ok : Bool
  cookies : List Cookie
  cookieHeader : String
  authHeader : String
  origin : String
  foundAuth : List String
  error : Option String
  source : SourceFlags
deriving DecidableEq

/-- One element of the `tried` trace (src/server.js:263):
`{ profile, ok, error, debug }`, where `debug` carries the clone's source
presence flags. -/
structure TriedEntry where
  profile : String
  ok : Bool
  error : Option String
  source : SourceFlags
deriving DecidableEq

/-- The value `fetchFreshAuth` returns (src/server.js:267-274 on success,
279-286 when every candidate failed), with `debug` flattened into
`pickedProfile` and `tried`. -/
structure HarvestResult where
  cookies : List Cookie
  cookieHeader : String
  authHeader : String
  origin : String
  foundAuth : List String
  pickedProfile : String
  tried : List TriedEntry
deriving DecidableEq

/-- The trace entry pushed for one candidate (src/server.js:263). -/
def mkTried (profile : String) (a : AttemptOutcome) : TriedEntry :=
  { profile := profile, ok := a.ok, error := a.error, source := a.source }

/-- The early return of src/server.js:267-274 taken at the first successful
attempt. -/
def successResult (candidate : String) (a : AttemptOutcome)
    (tried : List TriedEntry) : HarvestResult :=
  { cookies := a.cookies, cookieHeader := a.cookieHeader, authHeader := a.authHeader,
    origin := a.origin, foundAuth := a.foundAuth, pickedProfile := candidate, tried := tried }

/-- The degraded result of src/server.js:279-286 returned when no candidate
worked: empty cookie list, empty cookie header, empty auth header, empty
found-identity list, and the full trace.  `origin` is
`new URL(targetUrl || LSA_URL).origin` and `lastCandidate` is
`candidates[candidates.length - 1]`. -/
def degradedResult (origin lastCandidate : String)
    (tried : List TriedEntry) : HarvestResult :=
  { cookies := [], cookieHeader := "", authHeader := "", origin := origin,
    foundAuth := [], pickedProfile := lastCandidate, tried := tried }

/-- The candidate loop of `fetchFreshAuth` (src/server.js:261-276): run one
attempt per candidate in order, push its trace entry, clean up, and return at
the first `attempt.ok`; when the list is exhausted return the degraded result.
The accumulator `tried` is the trace built so far; an attempt is executed
exactly when its entry is pushed onto the trace. -/
def fetchFreshAuthGo (attempt : String → AttemptOutcome)
    (origin lastCandidate : String) :
    List String → List TriedEntry → HarvestResult
  | [], tried => degradedResult origin lastCandidate tried
  | c :: rest, tried =>
      let a := attempt c
      let tried' := tried ++ [mkTried c a]
      if a.ok then successResult c a tried'
      else fetchFreshAuthGo attempt origin lastCandidate rest tried'

/-- `fetchFreshAuth(targetUrl, forcedProfile)` (src/server.js:257-287), with
the per-candidate browser work abstracted as `attempt` and the URL-origin
computation of line 283 as `origin`. -/
def fetchFreshAuth (attempt : String → AttemptOutcome) (origin : String)
    (forced : Option String) (preferred : String) : HarvestResult :=
  let candidates := candidatesFor forced preferred
  fetchFreshAuthGo attempt origin (candidates.getLastD "") candidates []

/-! ## Workspace cleanup paths (src/server.js:164-251, 261-264) -/

/-- Whether `puppeteer.launch` (src/server.js:167, evaluated after the clone
but before the `try` block) returns a browser or throws. -/
inductive LaunchOutcome where
  | ok
  | throws
deriving DecidableEq

/-- Whether the `try` body of src/server.js:182-241 returns the attempt record
normally or throws (the throw is caught at line 242 and converted into a
failed attempt record that still carries `_cleanup`). -/
inductive BodyOutcome where
  | ok
  | throwsCaught
deriving DecidableEq

/-- Events of one attempt, in execution order. -/
inductive AttemptEv where
  | cloneWorkspace
  | launchBrowser
  | runBody
  | closeBrowser
  | runCleanup
  | raiseError
deriving DecidableEq

/-- Execution trace of `tryProfileOnce(profileName, targetUrl)`
(src/server.js:164-252): the clone (line 165) always creates the temp
workspace first; `puppeteer.launch` (line 167) sits outside the
`try`/`catch`/`finally`, so when it throws the exception escapes at once; when
it returns, the body runs, any body error is caught (line 242), and the
`finally` (line 250) closes the browser; the returned record carries
`_cleanup` but `tryProfileOnce` itself never invokes it. -/
def tryProfileOnceTrace : LaunchOutcome → BodyOutcome → List AttemptEv
  | .throws, _ => [.cloneWorkspace, .launchBrowser, .raiseError]
  | .ok, .ok => [.cloneWorkspace, .launchBrowser, .runBody, .closeBrowser]
  | .ok, .throwsCaught => [.cloneWorkspace, .launchBrowser, .runBody, .closeBrowser]

/-- One iteration of `fetchFreshAuth`'s loop around the attempt
(src/server.js:262-264): if `tryProfileOnce` resolves (does not raise), the
caller immediately runs `await attempt._cleanup()` (line 264), removing the
workspace; if the attempt raised, `fetchFreshAuth` has no handler and the
exception propagates without any cleanup. -/
def attemptTraceWithCaller (l : LaunchOutcome) (b : BodyOutcome) : List AttemptEv :=
  let t := tryProfileOnceTrace l b
  if .raiseError ∈ t then t else t ++ [.runCleanup]

/-- Whether the attempt's cloned workspace directory still exists once control
has left `fetchFreshAuth`'s handling of this attempt: it was created and its
cleanup never ran. -/
def workspaceRemains (l : LaunchOutcome) (b : BodyOutcome) : Bool :=
  .cloneWorkspace ∈ attemptTraceWithCaller l b &&
  .runCleanup ∉ attemptTraceWithCaller l b

/-! ## Token Poller (src/server.js:98-106) and the per-candidate touch loop
(src/server.js:186-218) -/

/-- The fixed sampling interval of `waitForSID` (src/server.js:103,
`await sleep(500)`), in milliseconds. -/
def pollIntervalMs : Nat := 500

/-- The poll budget passed to `waitForSID` after each touch navigation
(src/server.js:205, `waitForSID(page, 5000)`). -/
def touchPollBudgetMs : Nat := 5000

/-- The poll budget passed to `waitForSID` after the GAIA-check re-verify
navigations (src/server.js:217, `waitForSID(page, 6000)`). -/
def reverifyPollBudgetMs : Nat := 6000

/-- Number of samples the `while (Date.now() - start < timeoutMs)` loop of
src/server.js:100 takes: sample `i` happens at elapsed time
`500 * i`, so the loop samples while `500 * i < timeoutMs`. -/
def numSamples (timeoutMs : Nat) : Nat :=
  (timeoutMs + pollIntervalMs - 1) / pollIntervalMs

/-- The loop of `waitForSID` (src/server.js:98-106) from sample index `i` with
`fuel` in-budget samples remaining: each in-budget sample returns immediately
when `hasAuthCookies` holds; once the budget is exhausted the final
best-effort sample (line 105) is returned regardless. -/
def waitForSIDFrom (jar : Nat → List Cookie) : Nat → Nat → List Cookie
  | i, 0 => jar i
  | i, fuel + 1 =>
      if hasAuthCookies (jar i) then jar i
      else waitForSIDFrom jar (i + 1) fuel

/-- `waitForSID(page, timeoutMs)` (src/server.js:98-106), with the driver's
cookie jar abstracted as a function of the sample index. -/
def waitForSID (jar : Nat → List Cookie) (timeoutMs : Nat) : List Cookie :=
  waitForSIDFrom jar 0 (numSamples timeoutMs)

/-- A JavaScript runtime error. -/
inductive JsError where
  | referenceError (name : String)
deriving DecidableEq

/-- The touch URLs of src/server.js:192-198: the caller's URL (or `LSA_URL`)
followed by three fixed LSA endpoints. -/
def touchUrls (base : String) : List String :=
  [base,
   "https://ads.google.com/localservicesads/leads",
   "https://ads.google.com/localservicesads/accountpicker",
   "https://ads.google.com/localservices/lead?cid=1711176863&bid=2543314145&pid=9999999999&mcid=9121518467&euid=5170738981&lid=4823432947&hl=en&gl=US"]

/-- The `for (const u of touchUrls)` loop of src/server.js:201-207.  On a
non-empty URL list the first iteration evaluates the navigation call
`gotoSoft(page, urlWithBust, WAIT_UNTIL, NAV_TIMEOUTMS)` (src/server.js:203),
whose last argument is the undeclared identifier `NAV_TIMEOUTMS` (the declared
constant is `NAV_TIMEOUT_MS`); evaluating it raises a `ReferenceError` before
the navigation or any jar sampling can happen, so the loop never reaches
`waitForSID`.  The jar parameter is therefore never consulted. -/
def touchLoop (_jar : Nat → List Cookie) (urls : List String) :
    Except JsError (List Cookie) :=
  match urls with
  | [] => .ok []
  | _ :: _ => .error (.referenceError "NAV_TIMEOUTMS")

/-- The cookie-acquisition phase of `tryProfileOnce` for one candidate
(src/server.js:186-218), starting after the GAIA preflight: runs the touch
loop over `touchUrls`.  Because the touch-URL list is never empty, the phase
always terminates with the `ReferenceError` of src/server.js:203, which is
then caught by the `catch` of line 242. -/
def tryProfileCookiePhase (jar : Nat → List Cookie) (base : String) :
    Except JsError (List Cookie) :=
  touchLoop jar (touchUrls base)

/-! ## SHA-1 (FIPS 180-4), modelling node's `crypto.createHash('sha1')`
(an external library consumed at src/server.js:83).  Machine words are `Nat`s
reduced mod `2^32`; bitwise operations are fuelled structural recursions so
that every digest is kernel-computable. -/

/-- Reduce to a 32-bit word. -/
def w32 (n : Nat) : Nat := n % 4294967296

/-- Bitwise exclusive or of the low `fuel` bits. -/
def natXor : Nat → Nat → Nat → Nat
  | 0, _, _ => 0
  | fuel + 1, a, b => 2 * natXor fuel (a / 2) (b / 2) + (a + b) % 2

/-- Bitwise and of the low `fuel` bits. -/
def natAnd : Nat → Nat → Nat → Nat
  | 0, _, _ => 0
  | fuel + 1, a, b => 2 * natAnd fuel (a / 2) (b / 2) + a % 2 * (b % 2)

/-- Bitwise or of the low `fuel` bits. -/
def natOr : Nat → Nat → Nat → Nat
  | 0, _, _ => 0
  | fuel + 1, a, b =>
      2 * natOr fuel (a / 2) (b / 2) + (if a % 2 + b % 2 = 0 then 0 else 1)

/-- Bitwise complement of a 32-bit word. -/
def natNot32 (a : Nat) : Nat := 4294967295 - w32 a

/-- Rotate a 32-bit word left by `k` bits. -/
def rotl (k n : Nat) : Nat := w32 (n * 2 ^ k + n / 2 ^ (32 - k))

/-- The SHA-1 round function `f_t`. -/
def sha1F (t b c d : Nat) : Nat :=
  if t < 20 then natOr 32 (natAnd 32 b c) (natAnd 32 (natNot32 b) d)
  else if t < 40 then natXor 32 (natXor 32 b c) d
  else if t < 60 then natOr 32 (natOr 32 (natAnd 32 b c) (natAnd 32 b d)) (natAnd 32 c d)
  else natXor 32 (natXor 32 b c) d

/-- The SHA-1 round constant `K_t`. -/
def sha1K (t : Nat) : Nat :=
  if t < 20 then 1518500249
  else if t < 40 then 1859775393
  else if t < 60 then 2400959708
  else 3395469782

/-- `count` big-endian bytes of `v`. -/
def beBytes : Nat → Nat → List Nat
  | 0, _ => []
  | k + 1, v => beBytes k (v / 256) ++ [v % 256]

/-- SHA-1 message padding: `0x80`, zeros to 56 mod 64, then the bit length as
8 big-endian bytes. -/
def sha1Pad (msg : List Nat) : List Nat :=
  let len := msg.length
  let zeros := (64 - (len + 9) % 64) % 64
  msg ++ 128 :: List.replicate zeros 0 ++ beBytes 8 (8 * len)

/-- Group bytes into big-endian 32-bit words. -/
def bytesToWords : List Nat → List Nat
  | b0 :: b1 :: b2 :: b3 :: rest =>
      (((b0 * 256 + b1) * 256 + b2) * 256 + b3) :: bytesToWords rest
  | _ => []

/-- Split into 64-byte chunks; `fuel` bounds the number of chunks. -/
def chunk64Fuel : Nat → List Nat → List (List Nat)
  | 0, _ => []
  | fuel + 1, l =>
      if l.isEmpty then [] else l.take 64 :: chunk64Fuel fuel (l.drop 64)

/-- Split a byte list into 64-byte chunks. -/
def chunk64 (l : List Nat) : List (List Nat) := chunk64Fuel (l.length + 1) l

/-- The five working variables of a SHA-1 compression round. -/
structure Sha1Round where
  a : Nat
  b : Nat
  c : Nat
  d : Nat
  e : Nat
deriving DecidableEq

/-- One SHA-1 round with schedule word `wt`. -/
def sha1RoundStep (t : Nat) (r : Sha1Round) (wt : Nat) : Sha1Round :=
  { a := w32 (rotl 5 r.a + sha1F t r.b r.c r.d + r.e + sha1K t + wt),
    b := r.a, c := rotl 30 r.b, d := r.c, e := r.d }

/-- Rounds 0-15, whose schedule words are the chunk's own words. -/
def sha1Phase1 : Nat → Sha1Round → List Nat → Sha1Round
  | _, r, [] => r
  | t, r, word :: ws => sha1Phase1 (t + 1) (sha1RoundStep t r word) ws

/-- Rounds 16-79: `window` holds the previous sixteen schedule words
`w[t-16..t-1]`; the next word is
`rotl 1 (w[t-3] xor w[t-8] xor w[t-14] xor w[t-16])`. -/
def sha1Phase2 : Nat → Nat → Sha1Round → List Nat → Sha1Round
  | 0, _, r, _ => r
  | fuel + 1, t, r, window =>
      let wt := rotl 1 (natXor 32
        (natXor 32 (natXor 32 (window.getD 13 0) (window.getD 8 0)) (window.getD 2 0))
        (window.getD 0 0))
      sha1Phase2 fuel (t + 1) (sha1RoundStep t r wt) (window.tail ++ [wt])

/-- The SHA-1 chaining state. -/
structure Sha1State where
  h0 : Nat
  h1 : Nat
  h2 : Nat
  h3 : Nat
  h4 : Nat
deriving DecidableEq

/-- The SHA-1 initial state. -/
def sha1Init : Sha1State :=
  { h0 := 1732584193, h1 := 4023233417, h2 := 2562383102,
    h3 := 271733878, h4 := 3285377520 }

/-- Compress one 64-byte chunk (given as sixteen words) into the state. -/
def sha1Compress (st : Sha1State) (chunkWords : List Nat) : Sha1State :=
  let r0 : Sha1Round := { a := st.h0, b := st.h1, c := st.h2, d := st.h3, e := st.h4 }
  let r1 := sha1Phase1 0 r0 chunkWords
  let r2 := sha1Phase2 64 16 r1 chunkWords
  { h0 := w32 (st.h0 + r2.a), h1 := w32 (st.h1 + r2.b), h2 := w32 (st.h2 + r2.c),
    h3 := w32 (st.h3 + r2.d), h4 := w32 (st.h4 + r2.e) }

/-- SHA-1 of a byte list, as the final chaining state. -/
def sha1StateOf (msg : List Nat) : Sha1State :=
  ((chunk64 (sha1Pad msg)).map bytesToWords).foldl sha1Compress sha1Init

/-- The bytes `crypto.update` hashes for a string input: its UTF-8 encoding.
All strings this program hashes (`"<ts> <secret> <origin>"`) are ASCII, for
which the UTF-8 bytes are exactly the code points. -/
def strBytes (s : String) : List Nat := s.toList.map Char.toNat

/-- The sixteen lowercase hex digits. -/
def hexChar (n : Nat) : Char := "0123456789abcdef".toList.getD n 'x'

/-- A 32-bit word as eight hex characters, most significant nibble first. -/
def wordHex (w : Nat) : List Char :=
  [hexChar (w / 268435456 % 16), hexChar (w / 16777216 % 16),
   hexChar (w / 1048576 % 16), hexChar (w / 65536 % 16),
   hexChar (w / 4096 % 16), hexChar (w / 256 % 16),
   hexChar (w / 16 % 16), hexChar (w % 16)]

/-- `crypto.createHash('sha1').update(s).digest('hex')`: the 40-character
lowercase hexadecimal SHA-1 digest of `s`. -/
def sha1Hex (s : String) : String :=
  let st := sha1StateOf (strBytes s)
  String.mk (wordHex st.h0 ++ wordHex st.h1 ++ wordHex st.h2 ++
             wordHex st.h3 ++ wordHex st.h4)

/-! ## buildSAPISIDHASH (src/server.js:78-85, src/unnamed/part_003:46-53) -/

/-- `cookies.find(c => c.name === n)?.value` (src/server.js:79). -/
def cookieValue (cookies : List Cookie) (n : String) : Option String :=
  (cookies.find? fun c => c.name == n).map Cookie.value

/-- JavaScript `||` on the chain's string operands: keep the left value when
it is truthy (a non-empty string), otherwise take the right. -/
def jsOrString (a b : Option String) : Option String :=
  match a with
  | some v => if v = "" then b else some v
  | none => b

/-- The secret selection of src/server.js:80-81:
`get('SAPISID') || get('__Secure-3PAPISID') || get('__Secure-1PAPISID')`
followed by the `if (!sapsid) return ''` truthiness test — `none` when the
chain's value is `undefined` or the empty string. -/
def sapsidOf (cookies : List Cookie) : Option String :=
  match jsOrString (jsOrString (cookieValue cookies "SAPISID")
      (cookieValue cookies "__Secure-3PAPISID"))
      (cookieValue cookies "__Secure-1PAPISID") with
  | some v => if v = "" then none else some v
  | none => none

/-- Characterisation used in the theorems: the first of the three names whose
first matching cookie has a non-empty value. -/
def firstNonEmptySecret (cookies : List Cookie) : Option String :=
  (["SAPISID", "__Secure-3PAPISID", "__Secure-1PAPISID"].filterMap fun n =>
    match cookieValue cookies n with
    | some v => if v = "" then none else some v
    | none => none).head?

/-- `buildSAPISIDHASH(cookies, origin)` (src/server.js:78-85), with the
ambient clock made explicit: `ts` is `Math.floor(Date.now() / 1000)`.  When
the secret chain is falsy it returns the empty string; otherwise
`SAPISIDHASH <ts>_<sha1hex of "<ts> <secret> <origin>">`. -/
def buildSAPISIDHASH (ts : Nat) (cookies : List Cookie) (origin : String) : String :=
  match sapsidOf cookies with
  | none => ""
  | some sapsid =>
      "SAPISIDHASH " ++ toString ts ++ "_" ++
        sha1Hex (toString ts ++ " " ++ sapsid ++ " " ++ origin)

/-! ## Concrete fixtures used by the witness theorems -/

/-- An attempt outcome with `ok = false`, in the caught-error shape of
src/server.js:243-248. -/
def failFixture : AttemptOutcome :=
  { ok := false, cookies := [], cookieHeader := "", authHeader := "", origin := "",
    foundAuth := [], error := some "boom",
    source := { hasCookies := false, hasCookiesWal := false,
                hasNetCookies := false, hasNetCookiesWal := false } }

/-- An attempt outcome with `ok = true`, in the success shape of
src/server.js:232-241. -/
def okFixture : AttemptOutcome :=
  { ok := true, cookies := [{ name := "SID", value := "1", domain := ".google.com" }],
    cookieHeader := "SID=1", authHeader := "", origin := "https://ads.google.com",
    foundAuth := ["SID"], error := none,
    source := { hasCookies := true, hasCookiesWal := false,
                hasNetCookies := false, hasNetCookiesWal := false } }

/-- An attempt assignment where only `Profile 1` succeeds. -/
def attemptFixture : String → AttemptOutcome :=
  fun n => if n = "Profile 1" then okFixture else failFixture

/-- An attempt assignment where every candidate fails. -/
def allFailFixture : String → AttemptOutcome := fun _ => failFixture

/-- A coalescer state with an expired empty cache and no in-flight promise. -/
def coalStateFixture : CoalState :=
  { cacheHeader := "", cacheCookies := [], cacheExpires := 0,
    inflight := none, nextId := 0, started := [] }

/-- Three concurrent callers (the middle one forced) arriving after expiry. -/
def coalReqsFixture : List CallReq :=
  [{ force := false, now := 5 }, { force := true, now := 6 }, { force := false, now := 7 }]

/-- A jar holding an identity cookie from the very first sample. -/
def sidJarFixture : Nat → List Cookie :=
  fun _ => [{ name := "SID", value := "1" }]

/-- A jar that mints the identity cookie at the fourth sample (index 3). -/
def lateJarFixture : Nat → List Cookie :=
  fun n => if n < 3 then [] else [{ name := "SID", value := "1" }]

/-- A jar that never holds an identity cookie. -/
def emptyJarFixture : Nat → List Cookie := fun _ => []

/-- A cookie list whose only acceptable secret is a fallback-name cookie. -/
def secretCookiesFixture : List Cookie :=
  [{ name := "unrelated", value := "x" },
   { name := "__Secure-3PAPISID", value := "topsecret" }]

/-!
# Theorems
-/

set_option maxRecDepth 20000

/-! ## Helper lemmas -/

/-- The de-duplication pass only drops elements: its output is a sublist of
its input, so relative order is preserved. -/
theorem dedupFirstAux_sublist (l : List String) :
    ∀ seen, (dedupFirstAux seen l).Sublist l := by
  induction l with
  | nil => intro seen; simp [dedupFirstAux]
  | cons n rest ih =>
      intro seen
      by_cases h : n ∈ seen
      · rw [dedupFirstAux, if_pos h]
        exact (ih seen).cons n
      · rw [dedupFirstAux, if_neg h]
        exact (ih (n :: seen)).cons₂ n

/-- Membership after de-duplication: everything from the input except what was
already seen. -/
theorem mem_dedupFirstAux (l : List String) :
    ∀ seen x, x ∈ dedupFirstAux seen l ↔ x ∈ l ∧ x ∉ seen := by
  induction l with
  | nil => intro seen x; simp [dedupFirstAux]
  | cons n rest ih =>
      intro seen x
      by_cases h : n ∈ seen
      · rw [dedupFirstAux, if_pos h, ih]
        simp only [List.mem_cons]
        constructor
        · rintro ⟨hx, hs⟩; exact ⟨Or.inr hx, hs⟩
        · rintro ⟨hx | hx, hs⟩
          · exact absurd (hx ▸ h) hs
          · exact ⟨hx, hs⟩
      · rw [dedupFirstAux, if_neg h]
        simp only [List.mem_cons, ih]
        constructor
        · rintro (rfl | ⟨hr, hs⟩)
          · exact ⟨Or.inl rfl, h⟩
          · exact ⟨Or.inr hr, fun hx => hs (Or.inr hx)⟩
        · rintro ⟨rfl | hr, hs⟩
          · exact Or.inl rfl
          · by_cases hxn : x = n
            · exact Or.inl hxn
            · refine Or.inr ⟨hr, ?_⟩
              rintro (h1 | h1)
              · exact hxn h1
              · exact hs h1

/-- The de-duplicated candidate list has no duplicates. -/
theorem nodup_dedupFirstAux (l : List String) :
    ∀ seen, (dedupFirstAux seen l).Nodup := by
  induction l with
  | nil => intro seen; simp [dedupFirstAux]
  | cons n rest ih =>
      intro seen
      by_cases h : n ∈ seen
      · rw [dedupFirstAux, if_pos h]; exact ih seen
      · rw [dedupFirstAux, if_neg h]
        refine List.nodup_cons.mpr ⟨?_, ih (n :: seen)⟩
        intro hmem
        exact ((mem_dedupFirstAux rest (n :: seen) n).mp hmem).2 (by simp)

/-- The candidate list starts with the preferred configured name. -/
theorem listCandidateProfiles_head (preferred : String) :
    (listCandidateProfiles preferred).head? = some preferred := by
  simp [listCandidateProfiles, dedupFirstAux]

/-- The selector loop on a candidate list whose prefix `pre` all fails and
whose next element `c` succeeds: it returns `c`'s result at once, and the
trace grows by exactly one entry per element of `pre ++ [c]`, in list order —
nothing after `c` is attempted. -/
theorem fetchFreshAuthGo_first_success (attempt : String → AttemptOutcome)
    (origin lastC c : String) (post : List String)
    (hc : (attempt c).ok = true) (pre : List String)
    (hpre : ∀ x ∈ pre, (attempt x).ok = false) :
    ∀ tried, fetchFreshAuthGo attempt origin lastC (pre ++ c :: post) tried =
      successResult c (attempt c)
        (tried ++ (pre ++ [c]).map fun x => mkTried x (attempt x)) := by
  induction pre with
  | nil =>
      intro tried
      simp [fetchFreshAuthGo, hc]
  | cons x pre ih =>
      intro tried
      have hx : (attempt x).ok = false := hpre x (by simp)
      rw [List.cons_append, fetchFreshAuthGo]
      simp only [hx, Bool.false_eq_true, if_false]
      rw [ih (fun y hy => hpre y (by simp [hy]))]
      simp

/-- The selector loop on a candidate list that fails throughout: it returns
the degraded result, and the trace lists every candidate in order. -/
theorem fetchFreshAuthGo_all_fail (attempt : String → AttemptOutcome)
    (origin lastC : String) (cs : List String)
    (h : ∀ x ∈ cs, (attempt x).ok = false) :
    ∀ tried, fetchFreshAuthGo attempt origin lastC cs tried =
      degradedResult origin lastC (tried ++ cs.map fun x => mkTried x (attempt x)) := by
  induction cs with
  | nil => intro tried; simp [fetchFreshAuthGo]
  | cons x cs ih =>
      intro tried
      have hx : (attempt x).ok = false := h x (by simp)
      rw [fetchFreshAuthGo]
      simp only [hx, Bool.false_eq_true, if_false]
      rw [ih (fun y hy => h y (by simp [hy]))]
      simp

/-! ## Claim theorems -/

/-- Claim C1: the Profile Selector (`fetchFreshAuth`) runs one harvest attempt
per candidate strictly in list order — the forced profile alone when the
caller supplies one, otherwise the preferred configured name followed by the
generated alternate names de-duplicated preserving first occurrence — and
returns the result of the first successful attempt; no candidate after the
first success is attempted (the trace, which gains exactly one entry per
executed attempt, covers exactly the prefix ending at the first success). -/
theorem selector_order_first_success (attempt : String → AttemptOutcome)
    (origin preferred f : String) (forced : Option String)
    (pre post : List String) (c : String)
    (hpre : ∀ x ∈ pre, (attempt x).ok = false)
    (hc : (attempt c).ok = true)
    (hsplit : candidatesFor forced preferred = pre ++ c :: post) :
    candidatesFor (some f) preferred = [f] ∧
    (listCandidateProfiles preferred).head? = some preferred ∧
    (listCandidateProfiles preferred).Nodup ∧
    (listCandidateProfiles preferred).Sublist (preferred :: altProfileNames) ∧
    (∀ n, n ∈ listCandidateProfiles preferred ↔ n ∈ preferred :: altProfileNames) ∧
    fetchFreshAuth attempt origin forced preferred =
      successResult c (attempt c)
        ((pre ++ [c]).map fun x => mkTried x (attempt x)) := by
  refine ⟨rfl, listCandidateProfiles_head preferred,
    nodup_dedupFirstAux _ [], dedupFirstAux_sublist _ [], ?_, ?_⟩
  · intro n
    rw [listCandidateProfiles, mem_dedupFirstAux]
    simp
  · rw [fetchFreshAuth]
    simp only [hsplit]
    rw [fetchFreshAuthGo_first_success attempt origin _ c post hc pre hpre []]
    simp

/-- Witness for C1: with only `Profile 1` succeeding and the default preferred
name, the selector picks `Profile 1` and its trace covers exactly
`Default` then `Profile 1`. -/
theorem selector_order_first_success_witness :
    candidatesFor (some "Forced") "Default" = ["Forced"] ∧
    (listCandidateProfiles "Default").head? = some "Default" ∧
    (listCandidateProfiles "Default").Nodup ∧
    (listCandidateProfiles "Default").Sublist ("Default" :: altProfileNames) ∧
    (∀ n, n ∈ listCandidateProfiles "Default" ↔ n ∈ "Default" :: altProfileNames) ∧
    fetchFreshAuth attemptFixture "https://ads.google.com" none "Default" =
      successResult "Profile 1" (attemptFixture "Profile 1")
        ((["Default"] ++ ["Profile 1"]).map fun x => mkTried x (attemptFixture x)) :=
  selector_order_first_success attemptFixture "https://ads.google.com" "Default" "Forced"
    none ["Default"]
    ["Profile 2", "Profile 3", "Profile 4", "Profile 5", "Profile 6", "Profile 7", "Profile 8"]
    "Profile 1" (by decide) (by decide) (by decide)

/-- Claim C3: if every candidate attempt fails, the Selector returns — it is a
total function, so it never throws — a `HarvestResult` with empty cookie
header, empty auth header, empty found-identity list and empty cookie list,
whose trace lists every candidate attempted together with its artifact
presence flags (`mkTried` records each attempt's `source` flags). -/
theorem selector_all_fail_degraded (attempt : String → AttemptOutcome)
    (origin preferred : String) (forced : Option String)
    (h : ∀ x ∈ candidatesFor forced preferred, (attempt x).ok = false) :
    fetchFreshAuth attempt origin forced preferred =
      degradedResult origin ((candidatesFor forced preferred).getLastD "")
        ((candidatesFor forced preferred).map fun x => mkTried x (attempt x)) ∧
    (fetchFreshAuth attempt origin forced preferred).cookieHeader = "" ∧
    (fetchFreshAuth attempt origin forced preferred).authHeader = "" ∧
    (fetchFreshAuth attempt origin forced preferred).foundAuth = [] ∧
    (fetchFreshAuth attempt origin forced preferred).cookies = [] ∧
    (fetchFreshAuth attempt origin forced preferred).tried =
      (candidatesFor forced preferred).map fun x => mkTried x (attempt x) := by
  have hmain : fetchFreshAuth attempt origin forced preferred =
      degradedResult origin ((candidatesFor forced preferred).getLastD "")
        ((candidatesFor forced preferred).map fun x => mkTried x (attempt x)) := by
    rw [fetchFreshAuth]
    rw [fetchFreshAuthGo_all_fail attempt origin _ _ h []]
    simp
  refine ⟨hmain, ?_, ?_, ?_, ?_, ?_⟩ <;> rw [hmain] <;> rfl

/-- Witness for C3: a forced profile whose attempt fails yields the degraded
empty result with a one-entry trace. -/
theorem selector_all_fail_degraded_witness :
    fetchFreshAuth allFailFixture "https://ads.google.com" (some "Default") "Default" =
      degradedResult "https://ads.google.com"
        ((candidatesFor (some "Default") "Default").getLastD "")
        ((candidatesFor (some "Default") "Default").map fun x =>
          mkTried x (allFailFixture x)) ∧
    (fetchFreshAuth allFailFixture "https://ads.google.com" (some "Default") "Default").cookieHeader = "" ∧
    (fetchFreshAuth allFailFixture "https://ads.google.com" (some "Default") "Default").authHeader = "" ∧
    (fetchFreshAuth allFailFixture "https://ads.google.com" (some "Default") "Default").foundAuth = [] ∧
    (fetchFreshAuth allFailFixture "https://ads.google.com" (some "Default") "Default").cookies = [] ∧
    (fetchFreshAuth allFailFixture "https://ads.google.com" (some "Default") "Default").tried =
      (candidatesFor (some "Default") "Default").map fun x => mkTried x (allFailFixture x) :=
  selector_all_fail_degraded allFailFixture "https://ads.google.com" "Default" (some "Default")
    (by decide)

/-- A single coalescer step never changes the cache slot (the cache is only
written when the in-flight promise settles, src/server.js:586). -/
theorem coalStep_preserves_cache (s : CoalState) (r : CallReq) :
    (coalStep s r).1.cacheHeader = s.cacheHeader ∧
    (coalStep s r).1.cacheExpires = s.cacheExpires := by
  rw [coalStep]
  by_cases h : cacheServes s r = true
  · simp [h]
  · simp only [Bool.not_eq_true] at h
    cases hin : s.inflight <;> simp [h, hin]

/-- Callers arriving while a promise is in flight and the cache does not
serve them all attach to that same promise and the state is untouched. -/
theorem runCalls_all_attached (id : Nat) :
    ∀ (reqs : List CallReq) (s : CoalState), s.inflight = some id →
      (∀ r ∈ reqs, cacheServes s r = false) →
      runCalls s reqs = (s, reqs.map fun _ => CallOutcome.attached id) := by
  intro reqs
  induction reqs with
  | nil => intro s _ _; simp [runCalls]
  | cons r rest ih =>
      intro s hin h
      have hr : cacheServes s r = false := h r (by simp)
      have hstep : coalStep s r = (s, .attached id) := by
        rw [coalStep, hr]
        simp [hin]
      rw [runCalls, hstep, ih s hin (fun x hx => h x (by simp [hx]))]
      simp

/-- Claim C2: while a harvest is in flight, every concurrent call to
`getCookiesAndHeader` (the second variant, src/server.js:577-592), forced or
not, attaches to the same in-flight operation instead of starting a second
one: for any non-empty batch of calls arriving while the cache does not serve
them (expired, empty, or forced) and no promise is in flight yet, exactly one
harvest run is started, every caller is attached to that same run, and once
it settles every caller receives its one result. -/
theorem coalescer_single_harvest (s0 : CoalState) (reqs : List CallReq)
    (hin : s0.inflight = none) (hne : reqs ≠ [])
    (hexp : ∀ r ∈ reqs, cacheServes s0 r = false) :
    (runCalls s0 reqs).1.started = s0.started ++ [s0.nextId] ∧
    (∀ res ∈ (runCalls s0 reqs).2, res = CallOutcome.attached s0.nextId) ∧
    (∀ results : Nat → String, ∀ res ∈ (runCalls s0 reqs).2,
        deliver results res = results s0.nextId) := by
  cases reqs with
  | nil => exact absurd rfl hne
  | cons r rest =>
      have hr : cacheServes s0 r = false := hexp r (by simp)
      have hstep : coalStep s0 r =
          ({ s0 with inflight := some s0.nextId, nextId := s0.nextId + 1,
                     started := s0.started ++ [s0.nextId] },
           .attached s0.nextId) := by
        rw [coalStep, hr]
        simp [hin]
      have hrest : ∀ x ∈ rest, cacheServes
          ({ s0 with inflight := some s0.nextId, nextId := s0.nextId + 1,
                     started := s0.started ++ [s0.nextId] } : CoalState) x = false := by
        intro x hx
        have heq : cacheServes
            ({ s0 with inflight := some s0.nextId, nextId := s0.nextId + 1,
                       started := s0.started ++ [s0.nextId] } : CoalState) x =
            cacheServes s0 x := by
          simp [cacheServes]
        rw [heq]
        exact hexp x (by simp [hx])
      have hall := runCalls_all_attached s0.nextId rest
        { s0 with inflight := some s0.nextId, nextId := s0.nextId + 1,
                  started := s0.started ++ [s0.nextId] } rfl hrest
      refine ⟨?_, ?_, ?_⟩
      · rw [runCalls, hstep, hall]
      · intro res hres
        rw [runCalls, hstep, hall] at hres
        simp only [List.mem_cons, List.mem_map] at hres
        rcases hres with rfl | ⟨_, _, rfl⟩ <;> rfl
      · intro results res hres
        rw [runCalls, hstep, hall] at hres
        simp only [List.mem_cons, List.mem_map] at hres
        rcases hres with rfl | ⟨_, _, rfl⟩ <;> rfl

/-- Witness for C2: three concurrent callers (one of them forced) on an
expired empty cache start exactly one harvest run (id 0) and all attach to
it. -/
theorem coalescer_single_harvest_witness :
    (runCalls coalStateFixture coalReqsFixture).1.started =
      coalStateFixture.started ++ [coalStateFixture.nextId] ∧
    (∀ res ∈ (runCalls coalStateFixture coalReqsFixture).2,
        res = CallOutcome.attached coalStateFixture.nextId) ∧
    (∀ results : Nat → String, ∀ res ∈ (runCalls coalStateFixture coalReqsFixture).2,
        deliver results res = results coalStateFixture.nextId) :=
  coalescer_single_harvest coalStateFixture coalReqsFixture rfl (by decide) (by decide)

/-- Counterexample to C4 as stated: with `forceRefresh` false and an unexpired
cache slot (now = 50 < expires = 100) holding a degraded result whose cookie
header is the empty string, `getCookiesAndHeader` (src/unnamed/part_003:55-68)
does NOT return the cached result — the JS truthiness test on `cache.header`
fails, so a fresh harvest is performed (third component `true`) and the
response is not served from cache. -/
theorem cacheRead_degraded_counterexample :
    (50 < 100) ∧
    (p3GetCookiesAndHeader false 50
        { header := "", cookies := [], expires := 100 } ("h", []) 600000).2.2 = true ∧
    (p3GetCookiesAndHeader false 50
        { header := "", cookies := [], expires := 100 } ("h", []) 600000).2.1.fromCache = false := by
  decide

/-- Claim C4 (amended): a call with `forceRefresh` false made while the cache
slot's expiry is in the future returns the cached result unchanged without
invoking the harvest, provided the cached cookie header is non-empty; a
cached result with an empty cookie header is never served from cache. -/
theorem cacheRead_fresh_nonEmpty (now ttl : Nat) (cache : P3Cache)
    (harvest : String × List Cookie)
    (hh : cache.header ≠ "") (hexp : now < cache.expires) :
    p3GetCookiesAndHeader false now cache harvest ttl =
      (cache, { header := cache.header, cookies := cache.cookies, fromCache := true },
       false) := by
  rw [p3GetCookiesAndHeader]
  simp [hh, hexp]

/-- Witness for C4: a non-empty cached header inside its TTL is served
unchanged and no harvest runs. -/
theorem cacheRead_fresh_nonEmpty_witness :
    p3GetCookiesAndHeader false 50
        { header := "SID=1", cookies := [], expires := 100 } ("x", []) 7 =
      ({ header := "SID=1", cookies := [], expires := 100 },
       { header := "SID=1", cookies := [], fromCache := true }, false) :=
  cacheRead_fresh_nonEmpty 50 7
    { header := "SID=1", cookies := [], expires := 100 } ("x", [])
    (by decide) (by decide)

/-- Counterexample to C5 as stated: when `puppeteer.launch`
(src/server.js:167, outside the `try`) throws, the attempt terminates by a
thrown error, `fetchFreshAuth` never reaches `attempt._cleanup()`
(src/server.js:264), and the attempt's cloned workspace directory still
exists. -/
theorem workspace_leak_counterexample :
    workspaceRemains .throws .ok = true ∧
    attemptTraceWithCaller .throws .ok =
      [.cloneWorkspace, .launchBrowser, .raiseError] := by
  decide

/-- Claim C5 (amended): on every exit path on which the browser launch
succeeds — the attempt body returning normally or throwing and being caught —
the caller (`fetchFreshAuth`, src/server.js:264) runs the attempt's cleanup
and the cloned workspace no longer exists; only a throwing launch (which
escapes `tryProfileOnce` before the `try` block is entered) leaks the
workspace. -/
theorem workspace_cleanup_launch_ok (l : LaunchOutcome) (b : BodyOutcome)
    (h : l = .ok) :
    workspaceRemains l b = false ∧
    AttemptEv.runCleanup ∈ attemptTraceWithCaller l b := by
  subst h
  cases b <;> exact ⟨by decide, by decide⟩

/-- Witness for C5: a successful launch with a caught body error still ends
with the workspace removed. -/
theorem workspace_cleanup_launch_ok_witness :
    workspaceRemains .ok .throwsCaught = false ∧
    AttemptEv.runCleanup ∈ attemptTraceWithCaller .ok .throwsCaught :=
  workspace_cleanup_launch_ok .ok .throwsCaught rfl

/-- The poll loop returns the final best-effort sample when no in-budget
sample satisfies the predicate. -/
theorem waitForSIDFrom_exhausted (jar : Nat → List Cookie) :
    ∀ (fuel start : Nat),
      (∀ j, start ≤ j → j < start + fuel → hasAuthCookies (jar j) = false) →
      waitForSIDFrom jar start fuel = jar (start + fuel) := by
  intro fuel
  induction fuel with
  | zero => intro start _; simp [waitForSIDFrom]
  | succ fuel ih =>
      intro start h
      have h0 : hasAuthCookies (jar start) = false :=
        h start (Nat.le_refl start) (by omega)
      rw [waitForSIDFrom, h0]
      simp only [Bool.false_eq_true, if_false]
      have := ih (start + 1) (fun j hj1 hj2 => h j (by omega) (by omega))
      rw [this]
      congr 1
      omega

/-- The poll loop returns the first satisfying sample as soon as it occurs
within the budget. -/
theorem waitForSIDFrom_first (jar : Nat → List Cookie) :
    ∀ (fuel start i : Nat), start ≤ i → i < start + fuel →
      (∀ j, start ≤ j → j < i → hasAuthCookies (jar j) = false) →
      hasAuthCookies (jar i) = true →
      waitForSIDFrom jar start fuel = jar i := by
  intro fuel
  induction fuel with
  | zero => intro start i h1 h2 _ _; omega
  | succ fuel ih =>
      intro start i h1 h2 hj hi
      by_cases hs : i = start
      · subst hs
        rw [waitForSIDFrom, hi]
        simp
      · have h0 : hasAuthCookies (jar start) = false :=
          hj start (Nat.le_refl start) (by omega)
        rw [waitForSIDFrom, h0]
        simp only [Bool.false_eq_true, if_false]
        exact ih (start + 1) i (by omega) (by omega)
          (fun j hj1 hj2 => hj j (by omega) hj2) hi

/-- Counterexample to C6 as stated: even with a jar that holds the identity
cookie `SID` from the very first sample, the per-candidate touch phase never
returns the jar — its first iteration evaluates the undeclared identifier
`NAV_TIMEOUTMS` (src/server.js:203) and terminates with a `ReferenceError`
before any navigation or poll; moreover the secondary re-verify poll budget
(6000 ms, src/server.js:217) is not shorter than the touch-phase poll budget
(5000 ms, src/server.js:205). -/
theorem token_poller_counterexample :
    hasAuthCookies (sidJarFixture 0) = true ∧
    tryProfileCookiePhase sidJarFixture "https://ads.google.com/localservicesads/" =
      .error (.referenceError "NAV_TIMEOUTMS") ∧
    ¬ reverifyPollBudgetMs < touchPollBudgetMs :=
  ⟨rfl, rfl, by decide⟩

/-- Claim C6 (amended): the poller `waitForSID` samples the jar at a fixed
500 ms interval, returns the jar immediately on the first sample satisfying
`hasAuthCookies`, and otherwise returns a final best-effort sample when the
time budget expires (not an error).  In `tryProfileOnce`, however, the touch
loop that would invoke it references the undeclared identifier
`NAV_TIMEOUTMS`, so every candidate's cookie phase terminates with a caught
`ReferenceError` before any poll; and the re-verify poll budget (6000 ms) is
longer than, not shorter than, each touch-phase poll budget (5000 ms). -/
theorem token_poller_amended (jar : Nat → List Cookie) (t i : Nat) (base : String) :
    (i < numSamples t → (∀ j, j < i → hasAuthCookies (jar j) = false) →
        hasAuthCookies (jar i) = true → waitForSID jar t = jar i) ∧
    ((∀ j, j < numSamples t → hasAuthCookies (jar j) = false) →
        waitForSID jar t = jar (numSamples t)) ∧
    tryProfileCookiePhase jar base = .error (.referenceError "NAV_TIMEOUTMS") ∧
    touchPollBudgetMs = 5000 ∧ reverifyPollBudgetMs = 6000 ∧ pollIntervalMs = 500 := by
  refine ⟨?_, ?_, rfl, rfl, rfl, rfl⟩
  · intro hlt hj hi
    rw [waitForSID]
    exact waitForSIDFrom_first jar (numSamples t) 0 i (Nat.zero_le i) (by omega)
      (fun j _ hj2 => hj j hj2) hi
  · intro hj
    rw [waitForSID]
    have := waitForSIDFrom_exhausted jar (numSamples t) 0
      (fun j _ hj2 => hj j (by omega))
    rw [this]
    congr 1
    omega

/-- Witness for C6: a jar minting `SID` at sample 3 is returned at sample 3
within the 5000 ms touch budget, and a jar that never mints identity cookies
yields the final best-effort sample of the 6000 ms re-verify budget. -/
theorem token_poller_amended_witness :
    waitForSID lateJarFixture 5000 = lateJarFixture 3 ∧
    waitForSID emptyJarFixture 6000 = emptyJarFixture (numSamples 6000) :=
  ⟨(token_poller_amended lateJarFixture 5000 3 "u").1 (by decide) (by decide) (by decide),
   (token_poller_amended emptyJarFixture 6000 0 "u").2.1 (by decide)⟩

/-- Claim C7: the identity predicate `hasAuthCookies` holds iff the cookie
list contains at least one cookie named `SID`, `__Secure-1PSID` or
`__Secure-3PSID`; in particular a list with only a cookie named `SID`
satisfies it and a list with only a cookie named `unrelated` does not. -/
theorem hasAuthCookies_identity (list : List Cookie) :
    (hasAuthCookies list = true ↔
      ∃ c ∈ list, c.name = "SID" ∨ c.name = "__Secure-1PSID" ∨ c.name = "__Secure-3PSID") ∧
    hasAuthCookies [{ name := "SID", value := "1" }] = true ∧
    hasAuthCookies [{ name := "unrelated", value := "1" }] = false := by
  refine ⟨?_, by decide, by decide⟩
  rw [hasAuthCookies, List.any_eq_true]
  simp [or_assoc]

/-- Claim C10: the serving layer's access gate `requireKey` admits every
request when the configured key is empty; for a non-empty key it admits a
request iff its `x-api-key` header equals the key, and otherwise produces a
401 response with the route handler — and hence the harvest and cache logic —
never invoked. -/
theorem requireKey_access_gate (apiKey : String) (hdr : Option String) :
    (apiKey = "" → requireKey apiKey hdr = .next) ∧
    (apiKey ≠ "" → (requireKey apiKey hdr = .next ↔ hdr = some apiKey)) ∧
    (requireKey apiKey hdr = .unauthorized401 →
      gateThenHandle apiKey hdr = { status := 401, handlerInvoked := false }) := by
  refine ⟨fun h => by simp [requireKey, h], fun h => ?_, fun h => by simp [gateThenHandle, h]⟩
  by_cases hh : hdr = some apiKey <;> simp [requireKey, h, hh]

/-- Witness for C10: the empty key admits an anonymous request; a matching
key header is admitted; a wrong header yields 401 without the handler
running. -/
theorem requireKey_access_gate_witness :
    requireKey "" none = .next ∧
    (requireKey "k" (some "k") = .next ↔ (some "k" : Option String) = some "k") ∧
    gateThenHandle "k" (some "wrong") = { status := 401, handlerInvoked := false } :=
  ⟨(requireKey_access_gate "" none).1 rfl,
   (requireKey_access_gate "k" (some "k")).2.1 (by decide),
   (requireKey_access_gate "k" (some "wrong")).2.2 (by decide)⟩

/-- Validation of the SHA-1 model against the FIPS 180-4 test vector for
`"abc"` (the same digest `crypto.createHash('sha1')` produces). -/
theorem sha1Hex_vector_abc :
    sha1Hex "abc" = "a9993e364706816aba3e25717850c26c9cd0d89d" := by
  decide

/-- Validation of the SHA-1 model on the empty message. -/
theorem sha1Hex_vector_empty :
    sha1Hex "" = "da39a3ee5e6b4b0d3255bfef95601890afd80709" := by
  decide

/-- A word renders as exactly eight hex characters. -/
theorem wordHex_length (w : Nat) : (wordHex w).length = 8 := rfl

/-- Every SHA-1 hex digest has exactly 40 characters. -/
theorem sha1Hex_length (s : String) : (sha1Hex s).length = 40 := by
  have h : (sha1Hex s).length =
      (wordHex (sha1StateOf (strBytes s)).h0 ++ wordHex (sha1StateOf (strBytes s)).h1 ++
       wordHex (sha1StateOf (strBytes s)).h2 ++ wordHex (sha1StateOf (strBytes s)).h3 ++
       wordHex (sha1StateOf (strBytes s)).h4).length := rfl
  rw [h]
  simp [List.length_append, wordHex_length]

/-- Every nibble renders as one of the sixteen hex digits. -/
theorem hexChar_mem_table : ∀ n, n < 16 → hexChar n ∈ "0123456789abcdef".toList := by
  decide

/-- Every character of a rendered word is a hex digit. -/
theorem wordHex_chars (w : Nat) :
    ∀ c ∈ wordHex w, c ∈ "0123456789abcdef".toList := by
  intro c hc
  simp only [wordHex, List.mem_cons, List.not_mem_nil, or_false] at hc
  rcases hc with h | h | h | h | h | h | h | h <;> subst h <;>
    exact hexChar_mem_table _ (Nat.mod_lt _ (by norm_num))

/-- Every character of a SHA-1 hex digest is a hex digit. -/
theorem sha1Hex_chars (s : String) :
    ∀ c ∈ (sha1Hex s).toList, c ∈ "0123456789abcdef".toList := by
  intro c hc
  have h : (sha1Hex s).toList =
      wordHex (sha1StateOf (strBytes s)).h0 ++ wordHex (sha1StateOf (strBytes s)).h1 ++
      wordHex (sha1StateOf (strBytes s)).h2 ++ wordHex (sha1StateOf (strBytes s)).h3 ++
      wordHex (sha1StateOf (strBytes s)).h4 := rfl
  rw [h] at hc
  simp only [List.mem_append] at hc
  rcases hc with ((((h1 | h1) | h1) | h1) | h1) <;> exact wordHex_chars _ _ h1

/-- The secret-selection chain of src/server.js:80-81 picks the first of the
three names whose first matching cookie has a non-empty value. -/
theorem sapsidOf_eq_firstNonEmptySecret (cookies : List Cookie) :
    sapsidOf cookies = firstNonEmptySecret cookies := by
  rw [sapsidOf, firstNonEmptySecret]
  rcases h1 : cookieValue cookies "SAPISID" with _ | v1 <;>
    rcases h2 : cookieValue cookies "__Secure-3PAPISID" with _ | v2 <;>
      rcases h3 : cookieValue cookies "__Secure-1PAPISID" with _ | v3
  · simp [jsOrString, h1, h2, h3]
  · by_cases hv3 : v3 = "" <;> simp [jsOrString, h1, h2, h3, hv3]
  · by_cases hv2 : v2 = "" <;> simp [jsOrString, h1, h2, h3, hv2]
  · by_cases hv2 : v2 = "" <;> by_cases hv3 : v3 = "" <;>
      simp [jsOrString, h1, h2, h3, hv2, hv3]
  · by_cases hv1 : v1 = "" <;> simp [jsOrString, h1, h2, h3, hv1]
  · by_cases hv1 : v1 = "" <;> by_cases hv3 : v3 = "" <;>
      simp [jsOrString, h1, h2, h3, hv1, hv3]
  · by_cases hv1 : v1 = "" <;> by_cases hv2 : v2 = "" <;>
      simp [jsOrString, h1, h2, h3, hv1, hv2]
  · by_cases hv1 : v1 = "" <;> by_cases hv2 : v2 = "" <;> by_cases hv3 : v3 = "" <;>
      simp [jsOrString, h1, h2, h3, hv1, hv2, hv3]

/-- Counterexample to C8 as stated: the cookie named `SAPISID` — the primary
name of the ordered list — is present (with the empty string as value), so
per the claim the synthesizer should use it and return a
`SAPISIDHASH <ts>_<hexdigest>` string; instead the JS truthiness chain skips
it and, no other acceptable name being present, returns the empty string. -/
theorem buildSAPISIDHASH_present_empty_counterexample :
    (cookieValue [{ name := "SAPISID", value := "" }] "SAPISID").isSome = true ∧
    buildSAPISIDHASH 1700000000 [{ name := "SAPISID", value := "" }]
      "https://ads.google.com" = "" := by
  decide

/-- Claim C8 (amended): the Auth Header Synthesizer checks the ordered name
list `SAPISID`, `__Secure-3PAPISID`, `__Secure-1PAPISID` and uses the first
name whose cookie value is non-empty; when no name is present with a
non-empty value it returns the empty string; otherwise it returns
`SAPISIDHASH <ts>_<hexdigest>` where the hexdigest is the 40-character
hexadecimal SHA-1 digest of the message `<ts> <secret> <origin>`. -/
theorem buildSAPISIDHASH_amended (ts : Nat) (cookies : List Cookie) (origin : String) :
    sapsidOf cookies = firstNonEmptySecret cookies ∧
    (sapsidOf cookies = none → buildSAPISIDHASH ts cookies origin = "") ∧
    (∀ s, sapsidOf cookies = some s →
      buildSAPISIDHASH ts cookies origin =
        "SAPISIDHASH " ++ toString ts ++ "_" ++
          sha1Hex (toString ts ++ " " ++ s ++ " " ++ origin) ∧
      (sha1Hex (toString ts ++ " " ++ s ++ " " ++ origin)).length = 40 ∧
      ∀ c ∈ (sha1Hex (toString ts ++ " " ++ s ++ " " ++ origin)).toList,
        c ∈ "0123456789abcdef".toList) := by
  refine ⟨sapsidOf_eq_firstNonEmptySecret cookies, fun h => ?_, fun s hs => ?_⟩
  · rw [buildSAPISIDHASH, h]
  · rw [buildSAPISIDHASH, hs]
    exact ⟨rfl, sha1Hex_length _, sha1Hex_chars _⟩

/-- Witness for C8: with no `SAPISID` cookie but a non-empty
`__Secure-3PAPISID`, the fallback value `topsecret` is selected and the
header has the specified shape. -/
theorem buildSAPISIDHASH_amended_witness :
    buildSAPISIDHASH 1700000000 secretCookiesFixture "https://ads.google.com" =
      "SAPISIDHASH " ++ toString 1700000000 ++ "_" ++
        sha1Hex (toString 1700000000 ++ " " ++ "topsecret" ++ " " ++ "https://ads.google.com") ∧
    (sha1Hex (toString 1700000000 ++ " " ++ "topsecret" ++ " " ++ "https://ads.google.com")).length = 40 ∧
    ∀ c ∈ (sha1Hex (toString 1700000000 ++ " " ++ "topsecret" ++ " " ++ "https://ads.google.com")).toList,
      c ∈ "0123456789abcdef".toList :=
  (buildSAPISIDHASH_amended 1700000000 secretCookiesFixture "https://ads.google.com").2.2
    "topsecret" (by decide)

/-- Claim C9: the Auth Header Synthesizer is a pure deterministic function of
(timestamp, secret, origin) — it is a Lean function of exactly these data, so
two invocations with identical inputs yield the identical string, and no
other feature of the cookie list influences the output: any two cookie lists
selecting the same secret give the identical header for every timestamp and
origin. -/
theorem buildSAPISIDHASH_noninterference (ts : Nat) (c1 c2 : List Cookie)
    (origin : String) (h : sapsidOf c1 = sapsidOf c2) :
    buildSAPISIDHASH ts c1 origin = buildSAPISIDHASH ts c2 origin := by
  rw [buildSAPISIDHASH, buildSAPISIDHASH, h]

/-- Witness for C9: adding an unrelated cookie does not change the header. -/
theorem buildSAPISIDHASH_noninterference_witness :
    buildSAPISIDHASH 1700000000 [{ name := "SAPISID", value := "x" }]
        "https://ads.google.com" =
      buildSAPISIDHASH 1700000000
        [{ name := "other", value := "y" }, { name := "SAPISID", value := "x" }]
        "https://ads.google.com" :=
  buildSAPISIDHASH_noninterference 1700000000
    [{ name := "SAPISID", value := "x" }]
    [{ name := "other", value := "y" }, { name := "SAPISID", value := "x" }]
    "https://ads.google.com" (by decide)

end LsaCookie
